import Mathlib

/-!
Shallow embedding of the GMX Risk Guard calculation core
(`src/lib/gmx-calculations` and `src/lib/constants`): the pure risk
calculators over position parameters.  JavaScript numbers are modelled
as exact rationals; the thrown unsupported-asset error of
`calculateLiquidationPrice` is modelled with `Except`.
-/

/-- An entry of the static asset reference table. -/
structure AssetConfig where
  symbol : String
  name : String
  address : String
  decimals : Nat
  priceDecimals : Nat
  minLeverage : ℚ
  maxLeverage : ℚ
  defaultLeverage : ℚ
deriving DecidableEq

/-- The static supported-asset list from `constants.ts`. -/
def SUPPORTED_ASSETS : List AssetConfig :=
  [ { symbol := "AVAX", name := "Avalanche",
      address := "0xB31f66AA3C1e785363F0875A1B74E27b85FD66c7",
      decimals := 18, priceDecimals := 8,
      minLeverage := 1, maxLeverage := 50, defaultLeverage := 5 },
    { symbol := "BTC", name := "Bitcoin",
      address := "0x50b7545627a5162F82A992c33b87aDc75187B218",
      decimals := 8, priceDecimals := 8,
      minLeverage := 1, maxLeverage := 50, defaultLeverage := 3 },
    { symbol := "ETH", name := "Ethereum",
      address := "0x49D5c2BdFfac6CE2BFdB6640F4F80f226bc10bAB",
      decimals := 18, priceDecimals := 8,
      minLeverage := 1, maxLeverage := 50, defaultLeverage := 3 },
    { symbol := "USDC", name := "USD Coin",
      address := "0xB97EF9Ef8734C71904D8002F8b6Bc66Dd9c48a6E",
      decimals := 6, priceDecimals := 8,
      minLeverage := 1, maxLeverage := 50, defaultLeverage := 5 } ]

/-- The flat fee-rate table from `constants.ts` (`FEE_STRUCTURE`). -/
structure FeeStructure where
  swapFee : ℚ
  positionFee : ℚ
  liquidationFee : ℚ
  borrowingFee : ℚ
  fundingRate : ℚ
deriving DecidableEq

def FEE_STRUCTURE : FeeStructure :=
  { swapFee := 0.0005, positionFee := 0.0001, liquidationFee := 0.02,
    borrowingFee := 0.0001, fundingRate := 0.0001 }

/-- The sole input value object of the calculation core. -/
structure PositionParams where
  asset : String
  collateral : ℚ
  leverage : ℚ
  isLong : Bool
  entryPrice : ℚ
deriving DecidableEq

structure LiquidationResult where
  liquidationPrice : ℚ
  distanceToLiquidation : ℚ
  distancePercentage : ℚ
  marginRatio : ℚ
deriving DecidableEq

structure PnLResult where
  pnl : ℚ
  pnlPercentage : ℚ
  roi : ℚ
  breakevenPrice : ℚ
deriving DecidableEq

structure FeeResult where
  positionFee : ℚ
  borrowingFee : ℚ
  fundingFee : ℚ
  totalFees : ℚ
deriving DecidableEq

structure RiskRewardResult where
  riskRewardRatio : ℚ
  expectedValue : ℚ
  probabilityOfProfit : ℚ
  maxLoss : ℚ
  maxProfit : ℚ
deriving DecidableEq

/-- `calculateLiquidationPrice`: throws `Asset ... not supported` when the
symbol is not found; otherwise applies the fixed 85% threshold formula. -/
def calculateLiquidationPrice (params : PositionParams) :
    Except String LiquidationResult :=
  match SUPPORTED_ASSETS.find? (fun a => a.symbol == params.asset) with
  | none => Except.error ("Asset " ++ params.asset ++ " not supported")
  | some _ =>
    let marginRatio := 1 / params.leverage
    let liquidationThreshold : ℚ := 0.85
    let liquidationPrice :=
      if params.isLong then
        params.entryPrice * (1 - marginRatio * liquidationThreshold)
      else
        params.entryPrice * (1 + marginRatio * liquidationThreshold)
    let distanceToLiquidation := |params.entryPrice - liquidationPrice|
    let distancePercentage := distanceToLiquidation / params.entryPrice * 100
    Except.ok
      ⟨liquidationPrice, distanceToLiquidation, distancePercentage,
        marginRatio * 100⟩

/-- `calculateTotalFees`: one-time position fee plus hourly borrowing and
funding fees, all proportional to `collateral * leverage`. -/
def calculateTotalFees (params : PositionParams) (hours : ℚ) : FeeResult :=
  let positionSize := params.collateral * params.leverage
  let positionFee := positionSize * FEE_STRUCTURE.positionFee
  let borrowingFee := positionSize * FEE_STRUCTURE.borrowingFee * hours
  let fundingFee := positionSize * FEE_STRUCTURE.fundingRate * hours
  ⟨positionFee, borrowingFee, fundingFee, positionFee + borrowingFee + fundingFee⟩

/-- `calculatePnL`: PnL at a hypothetical current price together with the
breakeven price derived from the fixed 24-hour fee total. -/
def calculatePnL (params : PositionParams) (currentPrice : ℚ) : PnLResult :=
  let positionSize := params.collateral * params.leverage
  let priceChange := currentPrice - params.entryPrice
  let priceChangePercentage := priceChange / params.entryPrice * 100
  let pnl :=
    if params.isLong then positionSize * (priceChangePercentage / 100)
    else positionSize * (-priceChangePercentage / 100)
  let pnlPercentage :=
    if params.isLong then priceChangePercentage * params.leverage
    else -priceChangePercentage * params.leverage
  let roi := pnl / params.collateral * 100
  let totalFees := (calculateTotalFees params 24).totalFees
  let breakevenPnL := totalFees
  let breakevenPriceChange := breakevenPnL / positionSize * 100
  let breakevenPrice :=
    if params.isLong then params.entryPrice * (1 + breakevenPriceChange / 100)
    else params.entryPrice * (1 - breakevenPriceChange / 100)
  ⟨pnl, pnlPercentage, roi, breakevenPrice⟩

/-- `calculateRiskReward`: risk/reward ratio, probability-of-profit
heuristic and expected value from stop-loss and take-profit levels. -/
def calculateRiskReward (params : PositionParams) (stopLoss takeProfit : ℚ) :
    RiskRewardResult :=
  let maxLoss :=
    if params.isLong then |params.entryPrice - stopLoss|
    else |stopLoss - params.entryPrice|
  let maxProfit :=
    if params.isLong then |takeProfit - params.entryPrice|
    else |params.entryPrice - takeProfit|
  let riskRewardRatio := maxProfit / maxLoss
  let probabilityOfProfit := 1 / (1 + riskRewardRatio)
  let expectedValue :=
    maxProfit * probabilityOfProfit - maxLoss * (1 - probabilityOfProfit)
  ⟨ riskRewardRatio, expectedValue, probabilityOfProfit * 100, maxLoss, maxProfit⟩

/-- The asset-specific maximum-leverage error string pushed by
`validatePosition` (`Maximum leverage for X is Nx`). -/
def assetMaxLeverageError (asset : String) (maxLev : ℚ) : String :=
  "Maximum leverage for " ++ asset ++ " is " ++ toString maxLev ++ "x"

structure ValidationResult where
  isValid : Bool
  errors : List String
deriving DecidableEq

/-- `validatePosition`: accumulates every violation into an error list.
`!asset` in the source is truthiness of a string, i.e. the empty string. -/
def validatePosition (params : PositionParams) : ValidationResult :=
  let errors :=
    (if params.asset = "" then ["Asset is required"] else []) ++
    (if params.collateral ≤ 0 then ["Collateral must be greater than 0"] else []) ++
    (if params.leverage < 1 ∨ params.leverage > 50 then
      ["Leverage must be between 1x and 50x"] else []) ++
    (if params.entryPrice ≤ 0 then ["Entry price must be greater than 0"] else []) ++
    (match SUPPORTED_ASSETS.find? (fun a => a.symbol == params.asset) with
     | some assetConfig =>
       if params.leverage > assetConfig.maxLeverage then
         [assetMaxLeverageError params.asset assetConfig.maxLeverage]
       else []
     | none => [])
  ⟨errors.isEmpty, errors⟩

/-- The liquidation price as computed inside `calculateLiquidationPrice`. -/
def liqPriceOf (p : PositionParams) : ℚ :=
  if p.isLong then p.entryPrice * (1 - 1 / p.leverage * 0.85)
  else p.entryPrice * (1 + 1 / p.leverage * 0.85)

example :
    calculateTotalFees ⟨"AVAX", 1000, 5, true, 51/2⟩ 24 =
      ⟨1/2, 12, 12, 49/2⟩ := by
  norm_num [calculateTotalFees, FEE_STRUCTURE]

example :
    calculateLiquidationPrice ⟨"AVAX", 1000, 5, true, 51/2⟩ =
      Except.ok ⟨4233/200, 867/200, 17, 20⟩ := by
  norm_num [calculateLiquidationPrice, SUPPORTED_ASSETS, abs]

example :
    (calculatePnL ⟨"AVAX", 1000, 5, true, 51/2⟩ (561/20)).pnl = 500 := by
  norm_num [calculatePnL, calculateTotalFees, FEE_STRUCTURE]

example :
    validatePosition ⟨"DOGE", 1000, 5, true, 25⟩ = ⟨true, []⟩ := by decide

/-! ## Helper lemmas -/

lemma find_supported_asset (p : PositionParams)
    (hsup : ∃ a ∈ SUPPORTED_ASSETS, a.symbol = p.asset) :
    ∃ cfg, SUPPORTED_ASSETS.find? (fun a => a.symbol == p.asset) = some cfg := by
  cases hfind : SUPPORTED_ASSETS.find? (fun a => a.symbol == p.asset) with
  | none =>
    obtain ⟨a, ha, hs⟩ := hsup
    exact absurd hs (by simpa using List.find?_eq_none.mp hfind a ha)
  | some cfg => exact ⟨cfg, rfl⟩

lemma calculateLiquidationPrice_eq_ok (p : PositionParams) (cfg : AssetConfig)
    (hfind : SUPPORTED_ASSETS.find? (fun a => a.symbol == p.asset) = some cfg) :
    calculateLiquidationPrice p = Except.ok
      ⟨liqPriceOf p, |p.entryPrice - liqPriceOf p|,
        |p.entryPrice - liqPriceOf p| / p.entryPrice * 100,
        1 / p.leverage * 100⟩ := by
  simp only [calculateLiquidationPrice, hfind, liqPriceOf]

lemma liq_distancePercentage (p : PositionParams)
    (hL : 0 < p.leverage) (he : 0 < p.entryPrice) :
    |p.entryPrice - liqPriceOf p| / p.entryPrice * 100 = 85 / p.leverage := by
  have hfrac : (0:ℚ) < p.entryPrice * (0.85 / p.leverage) :=
    mul_pos he (div_pos (by norm_num) hL)
  cases hlong : p.isLong with
  | true =>
    have h1 : p.entryPrice - liqPriceOf p = p.entryPrice * (0.85 / p.leverage) := by
      simp only [liqPriceOf, hlong, if_true]
      ring
    rw [h1, abs_of_pos hfrac]
    field_simp
    ring
  | false =>
    have h1 : p.entryPrice - liqPriceOf p = -(p.entryPrice * (0.85 / p.leverage)) := by
      simp only [liqPriceOf, hlong, Bool.false_eq_true, if_false]
      ring
    rw [h1, abs_neg, abs_of_pos hfrac]
    field_simp
    ring

/-! ## Claims -/

/-- C9: `calculatePnL` and `calculateTotalFees` never read the asset field:
two parameter records agreeing on collateral, leverage, direction and entry
price produce identical results for any current price and any duration,
whatever their asset symbols are (supported or not); both functions are
total, so neither fails for an unsupported asset. -/
theorem pnl_fees_ignore_asset (p1 p2 : PositionParams)
    (currentPrice hours : ℚ)
    (hc : p1.collateral = p2.collateral) (hl : p1.leverage = p2.leverage)
    (hd : p1.isLong = p2.isLong) (he : p1.entryPrice = p2.entryPrice) :
    calculatePnL p1 currentPrice = calculatePnL p2 currentPrice ∧
    calculateTotalFees p1 hours = calculateTotalFees p2 hours := by
  obtain ⟨a1, c1, l1, d1, e1⟩ := p1
  obtain ⟨a2, c2, l2, d2, e2⟩ := p2
  simp only at hc hl hd he
  subst hc hl hd he
  exact ⟨rfl, rfl⟩

theorem pnl_fees_ignore_asset_witness :
    calculatePnL ⟨"AVAX", 1000, 5, true, 51/2⟩ (561/20) =
      calculatePnL ⟨"DOGE", 1000, 5, true, 51/2⟩ (561/20) ∧
    calculateTotalFees ⟨"AVAX", 1000, 5, true, 51/2⟩ 24 =
      calculateTotalFees ⟨"DOGE", 1000, 5, true, 51/2⟩ 24 :=
  pnl_fees_ignore_asset ⟨"AVAX", 1000, 5, true, 51/2⟩ ⟨"DOGE", 1000, 5, true, 51/2⟩
    (561/20) 24 rfl rfl rfl rfl

/-- C8: the breakeven price of `calculatePnL` always inverts the 24-hour
total fee of `calculateTotalFees` into a price-change percentage
`f = totalFees / positionSize * 100` and applies it as
`entryPrice * (1 + f/100)` for long and `entryPrice * (1 - f/100)` for
short, regardless of the current price. -/
theorem calculatePnL_breakeven_24h (p : PositionParams) (currentPrice : ℚ)
    (hc : 0 < p.collateral) (hl : 1 ≤ p.leverage) (he : 0 < p.entryPrice) :
    (calculatePnL p currentPrice).breakevenPrice =
      if p.isLong then
        p.entryPrice *
          (1 + (calculateTotalFees p 24).totalFees / (p.collateral * p.leverage) * 100 / 100)
      else
        p.entryPrice *
          (1 - (calculateTotalFees p 24).totalFees / (p.collateral * p.leverage) * 100 / 100) := by
  cases hlong : p.isLong <;> simp only [calculatePnL, hlong, Bool.false_eq_true, if_true, if_false]

theorem calculatePnL_breakeven_24h_witness :
    (calculatePnL ⟨"AVAX", 1000, 5, true, 26⟩ (561/20)).breakevenPrice =
      if (⟨"AVAX", 1000, 5, true, 26⟩ : PositionParams).isLong then
        (26 : ℚ) *
          (1 + (calculateTotalFees ⟨"AVAX", 1000, 5, true, 26⟩ 24).totalFees / (1000 * 5) * 100 / 100)
      else
        (26 : ℚ) *
          (1 - (calculateTotalFees ⟨"AVAX", 1000, 5, true, 26⟩ 24).totalFees / (1000 * 5) * 100 / 100) :=
  calculatePnL_breakeven_24h ⟨"AVAX", 1000, 5, true, 26⟩ (561/20)
    (by decide) (by decide) (by decide)

/-- C7: for positive collateral and leverage at least 1, the fee total of
`calculateTotalFees` is monotonically non-decreasing in the duration
argument over nonnegative hours, and the one-time position fee does not
depend on the duration argument at all. -/
theorem calculateTotalFees_monotone_hours (p : PositionParams)
    (hc : 0 < p.collateral) (hl : 1 ≤ p.leverage) :
    (∀ h1 h2 : ℚ, 0 ≤ h1 → h1 ≤ h2 →
      (calculateTotalFees p h1).totalFees ≤ (calculateTotalFees p h2).totalFees) ∧
    (∀ h1 h2 : ℚ,
      (calculateTotalFees p h1).positionFee = (calculateTotalFees p h2).positionFee) := by
  have hpos : 0 < p.collateral * p.leverage :=
    mul_pos hc (lt_of_lt_of_le one_pos hl)
  constructor
  · intro h1 h2 _ h12
    simp only [calculateTotalFees, FEE_STRUCTURE]
    nlinarith [mul_le_mul_of_nonneg_left h12 hpos.le]
  · intro h1 h2
    rfl

theorem calculateTotalFees_monotone_hours_witness :
    (calculateTotalFees ⟨"AVAX", 1000, 5, true, 51/2⟩ 1).totalFees ≤
      (calculateTotalFees ⟨"AVAX", 1000, 5, true, 51/2⟩ 24).totalFees ∧
    (calculateTotalFees ⟨"AVAX", 1000, 5, true, 51/2⟩ 1).positionFee =
      (calculateTotalFees ⟨"AVAX", 1000, 5, true, 51/2⟩ 24).positionFee := by
  have h := calculateTotalFees_monotone_hours ⟨"AVAX", 1000, 5, true, 51/2⟩
    (by decide) (by decide)
  exact ⟨h.1 1 24 (by decide) (by decide), h.2 1 24⟩

/-- C2 counterexample: at entry 100, stop-loss 90, take-profit 120 (long),
`maxLoss = 10` is nonzero, the returned ratio is 2, yet the returned
`probabilityOfProfit` field is 100/3, not `1/(1+ratio) = 1/3`: the code
scales the heuristic by 100 before returning it. -/
theorem calculateRiskReward_probability_counterexample :
    (calculateRiskReward ⟨"AVAX", 1000, 5, true, 100⟩ 90 120).maxLoss ≠ 0 ∧
    (calculateRiskReward ⟨"AVAX", 1000, 5, true, 100⟩ 90 120).probabilityOfProfit ≠
      1 / (1 + RiskRewardResult.riskRewardRatio
        (calculateRiskReward ⟨"AVAX", 1000, 5, true, 100⟩ 90 120)) := by
  constructor <;> norm_num [calculateRiskReward, abs]

/-- C2 (amended): the `probabilityOfProfit` field returned by
`calculateRiskReward` equals `100 * (1/(1+ratio))` — the heuristic
`1/(1+ratio)` expressed as a percentage — where the ratio is the returned
`riskRewardRatio` field. -/
theorem calculateRiskReward_probability_percentage (p : PositionParams)
    (stopLoss takeProfit : ℚ)
    (h : (calculateRiskReward p stopLoss takeProfit).maxLoss ≠ 0) :
    (calculateRiskReward p stopLoss takeProfit).probabilityOfProfit =
      100 * (1 / (1 + RiskRewardResult.riskRewardRatio
        (calculateRiskReward p stopLoss takeProfit))) := by
  simp only [calculateRiskReward]
  ring

theorem calculateRiskReward_probability_percentage_witness :
    (calculateRiskReward ⟨"AVAX", 1000, 5, true, 100⟩ 90 120).probabilityOfProfit =
      100 * (1 / (1 + RiskRewardResult.riskRewardRatio
        (calculateRiskReward ⟨"AVAX", 1000, 5, true, 100⟩ 90 120))) :=
  calculateRiskReward_probability_percentage ⟨"AVAX", 1000, 5, true, 100⟩ 90 120
    (by norm_num [calculateRiskReward, abs])

lemma validatePosition_isValid_false_of_mem {p : PositionParams} {s : String}
    (h : s ∈ (validatePosition p).errors) : (validatePosition p).isValid = false := by
  have hval : (validatePosition p).isValid = (validatePosition p).errors.isEmpty := rfl
  cases herr : (validatePosition p).errors with
  | nil =>
    rw [herr] at h
    exact absurd h (List.not_mem_nil s)
  | cons x t =>
    rw [hval, herr]
    rfl

lemma mem_ite_singleton {c : Prop} [Decidable c] {s x : String}
    (h : s ∈ (if c then [x] else [])) : s = x := by
  split at h
  · exact List.mem_singleton.mp h
  · exact absurd h (List.not_mem_nil s)

lemma mem_ite_cond {c : Prop} [Decidable c] {s : String} {l : List String}
    (h : s ∈ (if c then l else [])) : c := by
  by_cases hc : c
  · exact hc
  · rw [if_neg hc] at h
    exact absurd h (List.not_mem_nil s)

/-- C3: `validatePosition` accumulates violations and never throws: leverage
outside [1,50] contributes the leverage-specific error string, nonpositive
collateral contributes the collateral-specific error string, each forces
`isValid = false`, and when both violations hold both strings are in the
returned list. -/
theorem validatePosition_accumulates (p : PositionParams) :
    ((p.leverage < 1 ∨ p.leverage > 50) →
      (validatePosition p).isValid = false ∧
      "Leverage must be between 1x and 50x" ∈ (validatePosition p).errors) ∧
    (p.collateral ≤ 0 →
      (validatePosition p).isValid = false ∧
      "Collateral must be greater than 0" ∈ (validatePosition p).errors) := by
  constructor
  · intro hcond
    have hmem : "Leverage must be between 1x and 50x" ∈ (validatePosition p).errors := by
      simp only [validatePosition, List.mem_append]
      refine Or.inl (Or.inl (Or.inr ?_))
      rw [if_pos hcond]
      exact List.mem_singleton_self _
    exact ⟨validatePosition_isValid_false_of_mem hmem, hmem⟩
  · intro hcond
    have hmem : "Collateral must be greater than 0" ∈ (validatePosition p).errors := by
      simp only [validatePosition, List.mem_append]
      refine Or.inl (Or.inl (Or.inl (Or.inr ?_)))
      rw [if_pos hcond]
      exact List.mem_singleton_self _
    exact ⟨validatePosition_isValid_false_of_mem hmem, hmem⟩

theorem validatePosition_accumulates_witness :
    "Leverage must be between 1x and 50x" ∈
      (validatePosition ⟨"AVAX", 0, 60, true, 25⟩).errors ∧
    "Collateral must be greater than 0" ∈
      (validatePosition ⟨"AVAX", 0, 60, true, 25⟩).errors ∧
    (validatePosition ⟨"AVAX", 0, 60, true, 25⟩).isValid = false := by
  have h := validatePosition_accumulates ⟨"AVAX", 0, 60, true, 25⟩
  exact ⟨(h.1 (Or.inr (by decide))).2, (h.2 (by decide)).2, (h.2 (by decide)).1⟩

/-- C1 counterexample: "DOGE" is not in `SUPPORTED_ASSETS`, yet with
collateral 1000, leverage 5 and entry price 25 all in range,
`validatePosition` returns `isValid = true` with an empty error list —
no unsupported-asset error string is reported. -/
theorem validatePosition_unsupported_asset_counterexample :
    (∀ a ∈ SUPPORTED_ASSETS, a.symbol ≠ "DOGE") ∧
    (validatePosition ⟨"DOGE", 1000, 5, true, 25⟩).isValid = true ∧
    (validatePosition ⟨"DOGE", 1000, 5, true, 25⟩).errors = [] := by decide

/-- C1 (amended): `validatePosition` does not check resolvability of the
asset symbol: for a non-empty symbol that is not in `SUPPORTED_ASSETS`,
with collateral, leverage and entry price in range, it returns
`isValid = true` with an empty error list (only the empty symbol would
produce the `Asset is required` error). -/
theorem validatePosition_unsupported_asset_ok (p : PositionParams)
    (ha : p.asset ≠ "")
    (hns : ∀ a ∈ SUPPORTED_ASSETS, a.symbol ≠ p.asset)
    (hc : 0 < p.collateral) (h1 : 1 ≤ p.leverage) (h50 : p.leverage ≤ 50)
    (he : 0 < p.entryPrice) :
    validatePosition p = ⟨true, []⟩ := by
  have hfind : SUPPORTED_ASSETS.find? (fun a => a.symbol == p.asset) = none :=
    List.find?_eq_none.mpr (fun a hmem => by simpa using hns a hmem)
  have h3 : ¬(p.leverage < 1 ∨ p.leverage > 50) := by
    rintro (h | h)
    · exact absurd h (not_lt.mpr h1)
    · exact absurd h (not_lt.mpr h50)
  simp only [validatePosition, hfind, if_neg ha, if_neg (not_le.mpr hc),
    if_neg h3, if_neg (not_le.mpr he), List.nil_append, List.append_nil]
  rfl

theorem validatePosition_unsupported_asset_ok_witness :
    validatePosition ⟨"DOGE", 1000, 5, true, 25⟩ = ⟨true, []⟩ :=
  validatePosition_unsupported_asset_ok ⟨"DOGE", 1000, 5, true, 25⟩
    (by decide) (by decide) (by decide) (by decide) (by decide) (by decide)

/-- C4: `calculateLiquidationPrice` succeeds exactly when the asset symbol
is found in `SUPPORTED_ASSETS`, and raises the unsupported-asset error
exactly when it is not. -/
theorem calculateLiquidationPrice_unsupported_iff (p : PositionParams) :
    ((∃ r, calculateLiquidationPrice p = Except.ok r) ↔
      ∃ a ∈ SUPPORTED_ASSETS, a.symbol = p.asset) ∧
    ((∃ e, calculateLiquidationPrice p = Except.error e) ↔
      ∀ a ∈ SUPPORTED_ASSETS, a.symbol ≠ p.asset) := by
  cases hfind : SUPPORTED_ASSETS.find? (fun a => a.symbol == p.asset) with
  | none =>
    have hall : ∀ a ∈ SUPPORTED_ASSETS, a.symbol ≠ p.asset := fun a ha => by
      simpa using List.find?_eq_none.mp hfind a ha
    have herr : calculateLiquidationPrice p =
        Except.error ("Asset " ++ p.asset ++ " not supported") := by
      simp only [calculateLiquidationPrice, hfind]
    refine ⟨⟨fun ⟨r, hr⟩ => ?_, fun ⟨a, ha, hs⟩ => absurd hs (hall a ha)⟩,
      fun _ => hall, fun _ => ⟨_, herr⟩⟩
    rw [herr] at hr
    exact Except.noConfusion hr
  | some cfg =>
    have hmem : cfg ∈ SUPPORTED_ASSETS := List.mem_of_find?_eq_some hfind
    have hsym : cfg.symbol = p.asset := by simpa using List.find?_some hfind
    have hok := calculateLiquidationPrice_eq_ok p cfg hfind
    refine ⟨⟨fun _ => ⟨cfg, hmem, hsym⟩, fun _ => ⟨_, hok⟩⟩,
      fun ⟨e, he'⟩ => ?_, fun hall => absurd hsym (hall cfg hmem)⟩
    rw [hok] at he'
    exact Except.noConfusion he'

theorem calculateLiquidationPrice_unsupported_iff_witness :
    (∃ r, calculateLiquidationPrice ⟨"AVAX", 1000, 5, true, 26⟩ = Except.ok r) ∧
    (∃ e, calculateLiquidationPrice ⟨"DOGE", 1000, 5, true, 26⟩ = Except.error e) :=
  ⟨(calculateLiquidationPrice_unsupported_iff ⟨"AVAX", 1000, 5, true, 26⟩).1.mpr (by decide),
   (calculateLiquidationPrice_unsupported_iff ⟨"DOGE", 1000, 5, true, 26⟩).2.mpr (by decide)⟩

/-- C5: for a valid position on a supported asset, the liquidation price is
strictly below the entry price for longs and strictly above it for shorts,
following `entryPrice * (1 ∓ 0.85/leverage)`. -/
theorem calculateLiquidationPrice_direction (p : PositionParams)
    (hsup : ∃ a ∈ SUPPORTED_ASSETS, a.symbol = p.asset)
    (h1 : 1 ≤ p.leverage) (h50 : p.leverage ≤ 50)
    (hc : 0 < p.collateral) (he : 0 < p.entryPrice) :
    ∃ r, calculateLiquidationPrice p = Except.ok r ∧
      (p.isLong = true →
        r.liquidationPrice < p.entryPrice ∧
        r.liquidationPrice = p.entryPrice * (1 - 0.85 / p.leverage)) ∧
      (p.isLong = false →
        p.entryPrice < r.liquidationPrice ∧
        r.liquidationPrice = p.entryPrice * (1 + 0.85 / p.leverage)) := by
  obtain ⟨cfg, hfind⟩ := find_supported_asset p hsup
  have hL : (0:ℚ) < p.leverage := lt_of_lt_of_le one_pos h1
  have hfrac : (0:ℚ) < p.entryPrice * (0.85 / p.leverage) :=
    mul_pos he (div_pos (by norm_num) hL)
  refine ⟨_, calculateLiquidationPrice_eq_ok p cfg hfind, ?_, ?_⟩
  · intro hlong
    have hval : liqPriceOf p = p.entryPrice * (1 - 0.85 / p.leverage) := by
      unfold liqPriceOf
      rw [if_pos hlong]
      ring
    refine ⟨?_, hval⟩
    show liqPriceOf p < p.entryPrice
    rw [hval]
    nlinarith [hfrac]
  · intro hlong
    have hval : liqPriceOf p = p.entryPrice * (1 + 0.85 / p.leverage) := by
      unfold liqPriceOf
      rw [if_neg (by simp [hlong])]
      ring
    refine ⟨?_, hval⟩
    show p.entryPrice < liqPriceOf p
    rw [hval]
    nlinarith [hfrac]

theorem calculateLiquidationPrice_direction_witness :
    ∃ r, calculateLiquidationPrice ⟨"AVAX", 1000, 5, true, 26⟩ = Except.ok r ∧
      ((true : Bool) = true →
        r.liquidationPrice < (26:ℚ) ∧
        r.liquidationPrice = 26 * (1 - 0.85 / 5)) ∧
      ((true : Bool) = false →
        (26:ℚ) < r.liquidationPrice ∧
        r.liquidationPrice = 26 * (1 + 0.85 / 5)) :=
  calculateLiquidationPrice_direction ⟨"AVAX", 1000, 5, true, 26⟩
    (by decide) (by decide) (by decide) (by decide) (by decide)

/-- C6: of two valid positions on the same supported asset that differ only
in leverage, the one with the strictly larger leverage has a strictly
smaller `distancePercentage` in `calculateLiquidationPrice`'s result. -/
theorem calculateLiquidationPrice_distance_antitone (p1 p2 : PositionParams)
    (hasset : p1.asset = p2.asset) (hcol : p1.collateral = p2.collateral)
    (hdir : p1.isLong = p2.isLong) (hent : p1.entryPrice = p2.entryPrice)
    (hsup : ∃ a ∈ SUPPORTED_ASSETS, a.symbol = p1.asset)
    (h1a : 1 ≤ p1.leverage) (h1b : p1.leverage ≤ 50)
    (h2a : 1 ≤ p2.leverage) (h2b : p2.leverage ≤ 50)
    (hc : 0 < p1.collateral) (he : 0 < p1.entryPrice)
    (hlev : p1.leverage < p2.leverage) :
    ∃ r1 r2, calculateLiquidationPrice p1 = Except.ok r1 ∧
      calculateLiquidationPrice p2 = Except.ok r2 ∧
      r2.distancePercentage < r1.distancePercentage := by
  obtain ⟨cfg1, hfind1⟩ := find_supported_asset p1 hsup
  obtain ⟨cfg2, hfind2⟩ := find_supported_asset p2 (hasset ▸ hsup)
  have hL1 : (0:ℚ) < p1.leverage := lt_of_lt_of_le one_pos h1a
  have hL2 : (0:ℚ) < p2.leverage := lt_of_lt_of_le one_pos h2a
  have he2 : 0 < p2.entryPrice := hent ▸ he
  refine ⟨_, _, calculateLiquidationPrice_eq_ok p1 cfg1 hfind1,
    calculateLiquidationPrice_eq_ok p2 cfg2 hfind2, ?_⟩
  show |p2.entryPrice - liqPriceOf p2| / p2.entryPrice * 100 <
    |p1.entryPrice - liqPriceOf p1| / p1.entryPrice * 100
  rw [liq_distancePercentage p1 hL1 he, liq_distancePercentage p2 hL2 he2]
  exact div_lt_div_of_pos_left (by norm_num) hL1 hlev

theorem calculateLiquidationPrice_distance_antitone_witness :
    ∃ r1 r2, calculateLiquidationPrice ⟨"AVAX", 1000, 5, true, 26⟩ = Except.ok r1 ∧
      calculateLiquidationPrice ⟨"AVAX", 1000, 10, true, 26⟩ = Except.ok r2 ∧
      r2.distancePercentage < r1.distancePercentage :=
  calculateLiquidationPrice_distance_antitone
    ⟨"AVAX", 1000, 5, true, 26⟩ ⟨"AVAX", 1000, 10, true, 26⟩
    rfl rfl rfl rfl (by decide) (by decide) (by decide) (by decide) (by decide)
    (by decide) (by decide) (by decide)

lemma assetMaxLeverageError_head (a : String) (m : ℚ) :
    (assetMaxLeverageError a m).data.headD ' ' = 'M' := by
  simp [assetMaxLeverageError, String.data_append]

/-- C10: every entry of the shipped `SUPPORTED_ASSETS` table has
`maxLeverage = 50`, so whenever the asset-specific maximum-leverage error
string is in `validatePosition`'s error list, the generic leverage-range
error string is in the same list. -/
theorem validatePosition_asset_error_implies_generic :
    (∀ a ∈ SUPPORTED_ASSETS, a.maxLeverage = 50) ∧
    ∀ (p : PositionParams) (m : ℚ),
      assetMaxLeverageError p.asset m ∈ (validatePosition p).errors →
      "Leverage must be between 1x and 50x" ∈ (validatePosition p).errors := by
  refine ⟨by decide, ?_⟩
  intro p m hmem
  have hhead := assetMaxLeverageError_head p.asset m
  cases hfq : SUPPORTED_ASSETS.find? (fun a => a.symbol == p.asset) with
  | none =>
    simp only [validatePosition, hfq, List.mem_append] at hmem
    rcases hmem with ((((h | h) | h) | h) | h)
    · have heq := mem_ite_singleton h
      rw [heq] at hhead
      exact absurd hhead (by decide)
    · have heq := mem_ite_singleton h
      rw [heq] at hhead
      exact absurd hhead (by decide)
    · have heq := mem_ite_singleton h
      rw [heq] at hhead
      exact absurd hhead (by decide)
    · have heq := mem_ite_singleton h
      rw [heq] at hhead
      exact absurd hhead (by decide)
    · exact absurd h (List.not_mem_nil _)
  | some cfg =>
    simp only [validatePosition, hfq, List.mem_append] at hmem ⊢
    rcases hmem with ((((h | h) | h) | h) | h)
    · have heq := mem_ite_singleton h
      rw [heq] at hhead
      exact absurd hhead (by decide)
    · have heq := mem_ite_singleton h
      rw [heq] at hhead
      exact absurd hhead (by decide)
    · have heq := mem_ite_singleton h
      rw [heq] at hhead
      exact absurd hhead (by decide)
    · have heq := mem_ite_singleton h
      rw [heq] at hhead
      exact absurd hhead (by decide)
    · have hgt : p.leverage > cfg.maxLeverage := mem_ite_cond h
      have hcfg : cfg ∈ SUPPORTED_ASSETS := List.mem_of_find?_eq_some hfq
      have h50 : cfg.maxLeverage = 50 := by
        have hall : ∀ a ∈ SUPPORTED_ASSETS, a.maxLeverage = 50 := by decide
        exact hall cfg hcfg
      have hgt50 : p.leverage > 50 := h50 ▸ hgt
      refine Or.inl (Or.inl (Or.inr ?_))
      rw [if_pos (Or.inr hgt50)]
      exact List.mem_singleton_self _

theorem validatePosition_asset_error_implies_generic_witness :
    "Leverage must be between 1x and 50x" ∈
      (validatePosition ⟨"AVAX", 1000, 60, true, 25⟩).errors :=
  validatePosition_asset_error_implies_generic.2 ⟨"AVAX", 1000, 60, true, 25⟩ 50
    (by decide)
